import Mathlib

/-!
Formal model of `src/extraction_script.py` (class `MHScrapper`).

The program drives a browser over a paginated listing: a `while True` loop
looks up the results table, reads the row-action ("view") buttons, extracts
seven records per button from its `data-*` attributes, checks a test-mode
stop (`current_page % 3 == 2`), a stop-page bound, and then clicks the
"next page" link.  Every loop iteration sits inside a blanket
`except Exception` that logs and continues; each button is additionally
wrapped in its own `try`.

Embedding choices:
* a DOM attribute read (`WebElement.get_attribute`) returns the attribute's
  value (`some v`), `none` when the attribute is absent (Python `None`),
  or raises a driver exception; a `Button` records the present attributes
  and the set of attribute names whose read raises, so a read has type
  `Except Unit (Option String)`;
* a Python dict record is an association list in insertion order;
* the browser session is a page-number cursor over an immutable listing
  (`List Page`); a failed initial `driver.get` leaves the cursor on no
  page (position 0), where every element lookup raises;
* the unbounded `while True` loop is run on fuel (`scrapeLoop`); `none`
  means the loop was still running when the fuel ran out.
-/

/-- A record as built by the source: a Python dict from field name to the
raw attribute value (`none` is the absent-value marker). -/
abbrev Rcd := List (String × Option String)

/-- Value of a field of a record, as Python `dict` lookup on the listed
keys (`none` when the key is not present at all). -/
def lookupField (key : String) (r : Rcd) : Option (Option String) :=
  (r.find? (fun p => p.1 == key)).map (fun p => p.2)

/-- A row-action ("view") button: its present `data-*` attributes with
their values, plus the attribute names whose read raises a driver
exception (e.g. a stale element). -/
structure Button where
  attrs : List (String × String)
  failing : List String
deriving DecidableEq, Repr

/-- The value `get_attribute` returns when the read does not raise:
the attribute's value, or `none` when the attribute is absent. -/
def attrVal (b : Button) (name : String) : Option String :=
  (b.attrs.find? (fun p => p.1 == name)).map (fun p => p.2)

/-- `WebElement.get_attribute(name)`: raises for a failing read, otherwise
returns the raw value (`none` when the attribute is absent). -/
def Button.get_attribute (b : Button) (name : String) :
    Except Unit (Option String) :=
  if name ∈ b.failing then Except.error () else Except.ok (attrVal b name)

/-- The seven accumulator lists of `MHScrapper.__init__`. -/
@[ext] structure Collections where
  page_rows : List Rcd
  identifiers : List Rcd
  locations : List Rcd
  contacts : List Rcd
  status : List Rcd
  services : List Rcd
  personnel : List Rcd
deriving DecidableEq, Repr

/-- The empty accumulators created in `__init__`. -/
def emptyCollections : Collections :=
  { page_rows := [], identifiers := [], locations := [], contacts := []
    status := [], services := [], personnel := [] }

/-- The collection at position `i` of the call order of `extract_data`
(page_rows, identifiers, locations, contacts, status, services,
personnel). -/
def collAt (i : Nat) (c : Collections) : List Rcd :=
  match i with
  | 0 => c.page_rows
  | 1 => c.identifiers
  | 2 => c.locations
  | 3 => c.contacts
  | 4 => c.status
  | 5 => c.services
  | 6 => c.personnel
  | _ => []

/-- One listing page as the loop observes it: whether the results table
(`find_element(By.ID, "hosp")`) is present, whether that table has a
`tbody`, the row-action buttons inside the body, whether the pagination
container (`find_element(By.CLASS_NAME, "pagination")`) is present, and
whether the next-page link (`find_element(By.LINK_TEXT, '›')`) is
present inside it. -/
structure Page where
  hasTable : Bool
  hasBody : Bool
  buttons : List Button
  hasPagination : Bool
  hasNext : Bool
deriving DecidableEq, Repr

/-- The scraper's state: the immutable listing (page number `n` is
`site.get? (n-1)`), the browser's page-number cursor `pos` (0 = the
browser is on no listing page, as after a failed `driver.get`), and the
fields of `MHScrapper.__init__`: `current_page`, `stop_page`, `test`,
and the seven accumulators. -/
structure ScrapState where
  site : List Page
  pos : Nat
  current_page : Nat
  stop_page : Option Nat
  test : Bool
  colls : Collections
deriving DecidableEq, Repr

/-- The page the browser currently shows, if any. -/
def shownPage (s : ScrapState) : Option Page :=
  if s.pos = 0 then none else s.site[s.pos - 1]?

/-- `MHScrapper.__init__`: `current_page := start_page`, remember
`stop_page` and `test`, empty accumulators, and navigate to the listing
at `start_page`; when `driver.get` raises the error is only logged and
the browser stays on no page (`pos = 0`). -/
def mkScraper (test : Bool) (start_page : Nat) (stop_page : Option Nat)
    (site : List Page) (navOk : Bool) : ScrapState :=
  { site := site
    pos := if navOk then start_page else 0
    current_page := start_page
    stop_page := stop_page
    test := test
    colls := emptyCollections }

/-- `MHScrapper.get_page_rows`: read eight attributes of the button and
append the denormalized summary record to `page_rows`. -/
def get_page_rows (c : Collections) (b : Button) : Except Unit Collections :=
  match b.get_attribute "data-state" with
  | Except.error e => Except.error e
  | Except.ok state =>
  match b.get_attribute "data-lga" with
  | Except.error e => Except.error e
  | Except.ok lga =>
  match b.get_attribute "data-ward" with
  | Except.error e => Except.error e
  | Except.ok ward =>
  match b.get_attribute "data-id" with
  | Except.error e => Except.error e
  | Except.ok facility_uid =>
  match b.get_attribute "data-unique_id" with
  | Except.error e => Except.error e
  | Except.ok facility_code =>
  match b.get_attribute "data-facility_name" with
  | Except.error e => Except.error e
  | Except.ok facility_name =>
  match b.get_attribute "data-facility_level" with
  | Except.error e => Except.error e
  | Except.ok facility_level =>
  match b.get_attribute "data-ownership" with
  | Except.error e => Except.error e
  | Except.ok ownership =>
    Except.ok { c with page_rows := c.page_rows ++
      [[("state", state), ("lga", lga), ("ward", ward),
        ("facility_uid", facility_uid), ("facility_code", facility_code),
        ("facility_name", facility_name), ("facility_level", facility_level),
        ("ownership", ownership)]] }

/-- `MHScrapper.get_identifiers`: read thirteen attributes and append the
identifier record to `identifiers`. -/
def get_identifiers (c : Collections) (b : Button) : Except Unit Collections :=
  match b.get_attribute "data-id" with
  | Except.error e => Except.error e
  | Except.ok facility_uid =>
  match b.get_attribute "data-unique_id" with
  | Except.error e => Except.error e
  | Except.ok facility_code =>
  match b.get_attribute "data-state_unique_id" with
  | Except.error e => Except.error e
  | Except.ok state_unique_id =>
  match b.get_attribute "data-registration_no" with
  | Except.error e => Except.error e
  | Except.ok registration_no =>
  match b.get_attribute "data-facility_name" with
  | Except.error e => Except.error e
  | Except.ok facility_name =>
  match b.get_attribute "data-alt_facility_name" with
  | Except.error e => Except.error e
  | Except.ok alternate_name =>
  match b.get_attribute "data-start_date" with
  | Except.error e => Except.error e
  | Except.ok start_date =>
  match b.get_attribute "data-ownership" with
  | Except.error e => Except.error e
  | Except.ok ownership =>
  match b.get_attribute "data-ownership_type" with
  | Except.error e => Except.error e
  | Except.ok ownership_type =>
  match b.get_attribute "data-facility_level" with
  | Except.error e => Except.error e
  | Except.ok facility_level =>
  match b.get_attribute "data-facility_level_option" with
  | Except.error e => Except.error e
  | Except.ok facility_level_option =>
  match b.get_attribute "data-operational_days" with
  | Except.error e => Except.error e
  | Except.ok days_of_operation =>
  match b.get_attribute "data-operational_hours" with
  | Except.error e => Except.error e
  | Except.ok hours_of_operation =>
    Except.ok { c with identifiers := c.identifiers ++
      [[("facility_uid", facility_uid),
        ("facility_code", facility_code), ("state_unique_id", state_unique_id),
        ("registration_no", registration_no), ("facility_name", facility_name),
        ("alternate_name", alternate_name), ("start_date", start_date),
        ("ownership", ownership), ("ownership_type", ownership_type),
        ("facility_level", facility_level),
        ("facility_level_option", facility_level_option),
        ("days_of_operation", days_of_operation),
        ("hours_of_operation", hours_of_operation)]] }

/-- `MHScrapper.get_location`: read eight attributes and append the
location record to `locations`. -/
def get_location (c : Collections) (b : Button) : Except Unit Collections :=
  match b.get_attribute "data-id" with
  | Except.error e => Except.error e
  | Except.ok facility_uid =>
  match b.get_attribute "data-state" with
  | Except.error e => Except.error e
  | Except.ok state =>
  match b.get_attribute "data-lga" with
  | Except.error e => Except.error e
  | Except.ok lga =>
  match b.get_attribute "data-ward" with
  | Except.error e => Except.error e
  | Except.ok ward =>
  match b.get_attribute "data-physical_location" with
  | Except.error e => Except.error e
  | Except.ok physical_location =>
  match b.get_attribute "data-postal_address" with
  | Except.error e => Except.error e
  | Except.ok postal_address =>
  match b.get_attribute "data-longitude" with
  | Except.error e => Except.error e
  | Except.ok longitude =>
  match b.get_attribute "data-latitude" with
  | Except.error e => Except.error e
  | Except.ok latitude =>
    Except.ok { c with locations := c.locations ++
      [[("facility_uid", facility_uid), ("state", state), ("lga", lga),
        ("ward", ward), ("physical_location", physical_location),
        ("postal_address", postal_address), ("longitude", longitude),
        ("latitude", latitude)]] }

/-- `MHScrapper.get_contacts`: read five attributes and append the contact
record to `contacts`. -/
def get_contacts (c : Collections) (b : Button) : Except Unit Collections :=
  match b.get_attribute "data-id" with
  | Except.error e => Except.error e
  | Except.ok facility_uid =>
  match b.get_attribute "data-phone_number" with
  | Except.error e => Except.error e
  | Except.ok phone_number =>
  match b.get_attribute "data-alternate_number" with
  | Except.error e => Except.error e
  | Except.ok alternate_number =>
  match b.get_attribute "data-email_address" with
  | Except.error e => Except.error e
  | Except.ok email_address =>
  match b.get_attribute "data-website" with
  | Except.error e => Except.error e
  | Except.ok website =>
    Except.ok { c with contacts := c.contacts ++
      [[("facility_uid", facility_uid),
        ("phone_number", phone_number), ("alternate_number", alternate_number),
        ("email_address", email_address), ("website", website)]] }

/-- `MHScrapper.get_status`: read four attributes and append the status
record to `status`. -/
def get_status (c : Collections) (b : Button) : Except Unit Collections :=
  match b.get_attribute "data-id" with
  | Except.error e => Except.error e
  | Except.ok facility_uid =>
  match b.get_attribute "data-operation_status" with
  | Except.error e => Except.error e
  | Except.ok operation_status =>
  match b.get_attribute "data-registration_status" with
  | Except.error e => Except.error e
  | Except.ok registration_status =>
  match b.get_attribute "data-license_status" with
  | Except.error e => Except.error e
  | Except.ok license_status =>
    Except.ok { c with status := c.status ++
      [[("facility_uid", facility_uid),
        ("operation_status", operation_status),
        ("registration_status", registration_status),
        ("license_status", license_status)]] }

/-- `MHScrapper.get_services`: read fifteen attributes (in source read
order) and append the service record (in source dict-key order) to
`services`. -/
def get_services (c : Collections) (b : Button) : Except Unit Collections :=
  match b.get_attribute "data-id" with
  | Except.error e => Except.error e
  | Except.ok facility_uid =>
  match b.get_attribute "data-outpatient" with
  | Except.error e => Except.error e
  | Except.ok outpatient_service =>
  match b.get_attribute "data-inpatient" with
  | Except.error e => Except.error e
  | Except.ok inpatient_service =>
  match b.get_attribute "data-medical" with
  | Except.error e => Except.error e
  | Except.ok medical_service =>
  match b.get_attribute "data-surgical" with
  | Except.error e => Except.error e
  | Except.ok surgical_service =>
  match b.get_attribute "data-gyn" with
  | Except.error e => Except.error e
  | Except.ok gynecology_service =>
  match b.get_attribute "data-pediatrics" with
  | Except.error e => Except.error e
  | Except.ok pediatrics_service =>
  match b.get_attribute "data-dental" with
  | Except.error e => Except.error e
  | Except.ok dental_service =>
  match b.get_attribute "data-specialservice" with
  | Except.error e => Except.error e
  | Except.ok special_service =>
  match b.get_attribute "data-beds" with
  | Except.error e => Except.error e
  | Except.ok tot_num_beds =>
  match b.get_attribute "data-onsite_laboratory" with
  | Except.error e => Except.error e
  | Except.ok onsite_laboratory =>
  match b.get_attribute "data-onsite_imaging" with
  | Except.error e => Except.error e
  | Except.ok onsite_imaging =>
  match b.get_attribute "data-onsite_pharmarcy" with
  | Except.error e => Except.error e
  | Except.ok onsite_pharmarcy =>
  match b.get_attribute "data-mortuary_services" with
  | Except.error e => Except.error e
  | Except.ok mortuary_services =>
  match b.get_attribute "data-ambulance_services" with
  | Except.error e => Except.error e
  | Except.ok ambulance_services =>
    Except.ok { c with services := c.services ++
      [[("facility_uid", facility_uid),
        ("outpatient_service", outpatient_service),
        ("ambulance_services", ambulance_services),
        ("mortuary_services", mortuary_services),
        ("onsite_imaging", onsite_imaging),
        ("onsite_pharmarcy", onsite_pharmarcy),
        ("onsite_laboratory", onsite_laboratory),
        ("tot_num_beds", tot_num_beds),
        ("special_service", special_service),
        ("dental_service", dental_service),
        ("pediatrics_service", pediatrics_service),
        ("gynecology_service", gynecology_service),
        ("surgical_service", surgical_service),
        ("medical_service", medical_service),
        ("inpatient_service", inpatient_service)]] }

/-- `MHScrapper.get_personnel`: read seventeen attributes (in source read
order) and append the personnel record (in source dict-key order) to
`personnel`. -/
def get_personnel (c : Collections) (b : Button) : Except Unit Collections :=
  match b.get_attribute "data-id" with
  | Except.error e => Except.error e
  | Except.ok facility_uid =>
  match b.get_attribute "data-doctors" with
  | Except.error e => Except.error e
  | Except.ok num_of_docs =>
  match b.get_attribute "data-pharmacists" with
  | Except.error e => Except.error e
  | Except.ok num_of_pharms =>
  match b.get_attribute "data-pharmacy_technicians" with
  | Except.error e => Except.error e
  | Except.ok num_of_pharm_technicians =>
  match b.get_attribute "data-dentist" with
  | Except.error e => Except.error e
  | Except.ok num_of_dentists =>
  match b.get_attribute "data-dental_technicians" with
  | Except.error e => Except.error e
  | Except.ok num_of_dental_technicians =>
  match b.get_attribute "data-nurses" with
  | Except.error e => Except.error e
  | Except.ok num_of_nurses =>
  match b.get_attribute "data-midwifes" with
  | Except.error e => Except.error e
  | Except.ok num_of_midwifes =>
  match b.get_attribute "data-nurse_midwife" with
  | Except.error e => Except.error e
  | Except.ok num_of_nurse_midwife =>
  match b.get_attribute "data-lab_technicians" with
  | Except.error e => Except.error e
  | Except.ok num_of_lab_technicians =>
  match b.get_attribute "data-lab_scientists" with
  | Except.error e => Except.error e
  | Except.ok num_of_lab_scientists =>
  match b.get_attribute "data-him_officers" with
  | Except.error e => Except.error e
  | Except.ok num_of_him_officers =>
  match b.get_attribute "data-community_health_officer" with
  | Except.error e => Except.error e
  | Except.ok num_of_community_health_officer =>
  match b.get_attribute "data-community_extension_workers" with
  | Except.error e => Except.error e
  | Except.ok num_of_community_extension_workers =>
  match b.get_attribute "data-jun_community_extension_worker" with
  | Except.error e => Except.error e
  | Except.ok num_of_jun_community_extension_worker =>
  match b.get_attribute "data-env_health_officers" with
  | Except.error e => Except.error e
  | Except.ok num_of_env_health_officers =>
  match b.get_attribute "data-attendants" with
  | Except.error e => Except.error e
  | Except.ok num_of_health_attendants =>
    Except.ok { c with personnel := c.personnel ++
      [[("facility_uid", facility_uid),
        ("num_of_docs", num_of_docs), ("num_of_pharms", num_of_pharms),
        ("num_of_midwifes", num_of_midwifes), ("num_of_nurses", num_of_nurses),
        ("num_of_nurse_midwife", num_of_nurse_midwife),
        ("num_of_pharm_technicians", num_of_pharm_technicians),
        ("num_of_dentists", num_of_dentists),
        ("num_of_health_attendants", num_of_health_attendants),
        ("num_of_env_health_officers", num_of_env_health_officers),
        ("num_of_him_officers", num_of_him_officers),
        ("num_of_community_health_officer", num_of_community_health_officer),
        ("num_of_jun_community_extension_worker",
          num_of_jun_community_extension_worker),
        ("num_of_community_extension_workers",
          num_of_community_extension_workers),
        ("num_of_dental_technicians", num_of_dental_technicians),
        ("num_of_lab_technicians", num_of_lab_technicians),
        ("num_of_lab_scientists", num_of_lab_scientists)]] }

/-- `MHScrapper.extract_data`: call the seven getters in order; a raised
exception aborts the remaining getters but keeps the appends already
made; the Boolean records whether an exception escaped to the caller
(`extract_view_buttons_data`'s `except`). -/
def extract_data (c : Collections) (b : Button) : Collections × Bool :=
  match get_page_rows c b with
  | Except.error _ => (c, true)
  | Except.ok c1 =>
  match get_identifiers c1 b with
  | Except.error _ => (c1, true)
  | Except.ok c2 =>
  match get_location c2 b with
  | Except.error _ => (c2, true)
  | Except.ok c3 =>
  match get_contacts c3 b with
  | Except.error _ => (c3, true)
  | Except.ok c4 =>
  match get_status c4 b with
  | Except.error _ => (c4, true)
  | Except.ok c5 =>
  match get_services c5 b with
  | Except.error _ => (c5, true)
  | Except.ok c6 =>
  match get_personnel c6 b with
  | Except.error _ => (c6, true)
  | Except.ok c7 => (c7, false)

/-- `MHScrapper.extract_view_buttons_data`: for each button, try
`extract_data`; a per-button failure is only logged (the partial state is
kept) and the remaining buttons are still attempted. -/
def extract_view_buttons_data (c : Collections) : List Button → Collections
  | [] => c
  | b :: rest => extract_view_buttons_data (extract_data c b).1 rest

/-- `MHScrapper.get_page_table`: `find_element(By.ID, "hosp")`, with any
exception (no page shown, or table absent) caught and turned into
`None`. -/
def get_page_table (s : ScrapState) : Option Page :=
  match shownPage s with
  | none => none
  | some pg => if pg.hasTable then some pg else none

/-- `MHScrapper.get_table_body`: `page_table.find_element(By.TAG_NAME,
"tbody")` with no exception handling: on `None` it raises
(`AttributeError`), and an absent `tbody` raises
`NoSuchElementException`. -/
def get_table_body (page_table : Option Page) : Except Unit Page :=
  match page_table with
  | none => Except.error ()
  | some pg => if pg.hasBody then Except.ok pg else Except.error ()

/-- `MHScrapper.get_page_view_buttons`: `find_elements` returns the
(possibly empty) list of buttons and never raises. -/
def get_page_view_buttons (pg : Page) : List Button :=
  pg.buttons

/-- `MHScrapper.get_next_page`: the pagination-container lookup is outside
the `try` (its exception escapes to the caller); an absent next-page link
is caught and returns `false`; otherwise the link is clicked (the browser
moves one page forward) and `current_page` is incremented. -/
def get_next_page (s : ScrapState) : Except Unit (ScrapState × Bool) :=
  match shownPage s with
  | none => Except.error ()
  | some pg =>
    if pg.hasPagination then
      if pg.hasNext then
        Except.ok ({ s with
                      pos := s.pos + 1
                      current_page := s.current_page + 1 }, true)
      else
        Except.ok (s, false)
    else
      Except.error ()

/-- Outcome of one iteration of the `while True` loop of
`scrape_mh_data`: `done` leaves the loop via `break`, `again` loops. -/
inductive StepOut where
  | done (s : ScrapState)
  | again (s : ScrapState)
deriving DecidableEq, Repr

/-- One iteration of the `while True` body of `MHScrapper.scrape_mh_data`:
table and body lookup, extraction of every button, the test-mode stop
check, the stop-page check, then the page advance; any raise inside the
body is caught by the blanket `except`, which logs and continues with
whatever state the body had already produced. -/
def scrape_iter (s : ScrapState) : StepOut :=
  match get_table_body (get_page_table s) with
  | Except.error _ => StepOut.again s
  | Except.ok pg =>
    let view_buttons := get_page_view_buttons pg
    let s1 : ScrapState :=
      { s with colls := extract_view_buttons_data s.colls view_buttons }
    if s1.test = true ∧ s1.current_page % 3 = 2 then StepOut.done s1
    else if s1.stop_page = some s1.current_page then StepOut.done s1
    else
      match get_next_page s1 with
      | Except.error _ => StepOut.again s1
      | Except.ok (s2, page_bool) =>
        if page_bool = false then StepOut.done s2 else StepOut.again s2

/-- The `while True` loop of `scrape_mh_data`, run on fuel: `some` is the
state at `break`; `none` means the loop was still running after `fuel`
iterations. -/
def scrapeLoop : Nat → ScrapState → Option ScrapState
  | 0, _ => none
  | fuel + 1, s =>
    match scrape_iter s with
    | StepOut.done s' => some s'
    | StepOut.again s' => scrapeLoop fuel s'

/-- The `full_data` dict built at the end of `scrape_mh_data`. -/
def full_data (c : Collections) : List (String × List Rcd) :=
  [("page_rows", c.page_rows), ("identifiers", c.identifiers),
   ("locations", c.locations), ("contacts", c.contacts),
   ("status", c.status), ("services", c.services),
   ("personnel", c.personnel)]

/-- `MHScrapper.scrape_mh_data`: run the loop, then return the keyed
bundle of the seven collections. -/
def scrape_mh_data (fuel : Nat) (s : ScrapState) :
    Option (List (String × List Rcd)) :=
  (scrapeLoop fuel s).map (fun t => full_data t.colls)

/-- The state carried by either outcome of a loop iteration. -/
def StepOut.state : StepOut → ScrapState
  | StepOut.done s => s
  | StepOut.again s => s

/-- One collection after one extraction step, relative to its previous
contents: either untouched, or extended by exactly one record whose
`facility_uid` field is `u`. -/
def appendedUid (old new : List Rcd) (u : Option String) : Prop :=
  new = old ∨ ∃ r, new = old ++ [r] ∧ lookupField "facility_uid" r = some u

/-- The collections produced by extracting, in order, the buttons of the
pages numbered `n, n+1, ..., n+k-1` of the listing described by `pg`,
starting from `c`: the expected result of a run that processed exactly
those pages. -/
def extractPages (pg : Nat → Page) (c : Collections) : Nat → Nat → Collections
  | _, 0 => c
  | n, k + 1 =>
    extractPages pg (extract_view_buttons_data c (pg n).buttons) (n + 1) k

/-- Statement of claim C7 at a state and a button: the whole extraction
step succeeds (no raise escapes), the contact record's `website` field is
the absent-value marker, and every one of the other six collections also
received exactly one new record for this element. -/
def C7Prop (c : Collections) (b : Button) : Prop :=
  (extract_data c b).2 = false ∧
  (∃ r, (extract_data c b).1.contacts = c.contacts ++ [r] ∧
    lookupField "website" r = some none) ∧
  (∃ r, (extract_data c b).1.page_rows = c.page_rows ++ [r]) ∧
  (∃ r, (extract_data c b).1.identifiers = c.identifiers ++ [r]) ∧
  (∃ r, (extract_data c b).1.locations = c.locations ++ [r]) ∧
  (∃ r, (extract_data c b).1.status = c.status ++ [r]) ∧
  (∃ r, (extract_data c b).1.services = c.services ++ [r]) ∧
  (∃ r, (extract_data c b).1.personnel = c.personnel ++ [r])

/-- A concrete healthy button: `data-id` and `data-state` present, every
read succeeds, all other attributes absent. -/
def bSample : Button :=
  { attrs := [("data-id", "f1"), ("data-state", "Lagos")], failing := [] }

/-- A concrete button whose `data-phone_number` read raises (the fourth
getter, `get_contacts`, fails mid-row); everything else reads fine. -/
def bRaise : Button :=
  { attrs := [("data-id", "f2")], failing := ["data-phone_number"] }

/-- A concrete button with no `data-website` attribute and no failing
read. -/
def bNoWeb : Button :=
  { attrs := [("data-id", "f3")], failing := [] }

/-- A fully working page with a next-page link. -/
def pgFull : Page :=
  { hasTable := true, hasBody := true, buttons := [bSample],
    hasPagination := true, hasNext := true }

/-- A fully working page whose pagination has no next-page link (a last
page). -/
def pgLast : Page :=
  { hasTable := true, hasBody := true, buttons := [bSample],
    hasPagination := true, hasNext := false }

/-- A page whose results table is missing. -/
def pgNoTable : Page :=
  { hasTable := false, hasBody := true, buttons := [bSample],
    hasPagination := true, hasNext := true }

/-- A working page whose pagination container is missing. -/
def pgNoPagination : Page :=
  { hasTable := true, hasBody := true, buttons := [bSample],
    hasPagination := false, hasNext := false }

/-- A one-page listing. -/
def siteOne : List Page := [pgLast]

/-- A two-page listing. -/
def siteTwo : List Page := [pgFull, pgLast]

/-- The two-page listing as a page-number function (page 1 is `pgFull`,
every later page is `pgLast`). -/
def pgTwo : Nat → Page := fun n => if n = 1 then pgFull else pgLast

/-- A listing whose only page has no results table. -/
def siteNoTable : List Page := [pgNoTable]

/-- A listing whose only page has no pagination container. -/
def siteNoPagination : List Page := [pgNoPagination]

/-- A scraper stuck on a page without a results table. -/
def stuckState : ScrapState := mkScraper true 1 none siteNoTable true

/-- Inversion of `get_page_rows` on success: a successful call appends exactly one
record to `page_rows` (all other collections untouched), and that record's
`facility_uid` field is the value read from the `data-id` attribute. -/
lemma get_page_rows_ok {b : Button} {c c' : Collections}
    (h : get_page_rows c b = Except.ok c') :
    ∃ v r, b.get_attribute "data-id" = Except.ok v ∧
      c' = { c with page_rows := c.page_rows ++ [r] } ∧
      lookupField "facility_uid" r = some v := by
  unfold get_page_rows at h
  rcases h1 : b.get_attribute "data-state" with e1 | v1 <;> simp only [h1] at h
  · exact Except.noConfusion h
  rcases h2 : b.get_attribute "data-lga" with e2 | v2 <;> simp only [h2] at h
  · exact Except.noConfusion h
  rcases h3 : b.get_attribute "data-ward" with e3 | v3 <;> simp only [h3] at h
  · exact Except.noConfusion h
  rcases h4 : b.get_attribute "data-id" with e4 | v4 <;> simp only [h4] at h
  · exact Except.noConfusion h
  rcases h5 : b.get_attribute "data-unique_id" with e5 | v5 <;> simp only [h5] at h
  · exact Except.noConfusion h
  rcases h6 : b.get_attribute "data-facility_name" with e6 | v6 <;> simp only [h6] at h
  · exact Except.noConfusion h
  rcases h7 : b.get_attribute "data-facility_level" with e7 | v7 <;> simp only [h7] at h
  · exact Except.noConfusion h
  rcases h8 : b.get_attribute "data-ownership" with e8 | v8 <;> simp only [h8, Except.ok.injEq] at h
  · exact Except.noConfusion h
  subst h
  exact ⟨v4, _, rfl, rfl, rfl⟩

/-- Inversion of `get_identifiers` on success: a successful call appends exactly one
record to `identifiers` (all other collections untouched), and that record's
`facility_uid` field is the value read from the `data-id` attribute. -/
lemma get_identifiers_ok {b : Button} {c c' : Collections}
    (h : get_identifiers c b = Except.ok c') :
    ∃ v r, b.get_attribute "data-id" = Except.ok v ∧
      c' = { c with identifiers := c.identifiers ++ [r] } ∧
      lookupField "facility_uid" r = some v := by
  unfold get_identifiers at h
  rcases h1 : b.get_attribute "data-id" with e1 | v1 <;> simp only [h1] at h
  · exact Except.noConfusion h
  rcases h2 : b.get_attribute "data-unique_id" with e2 | v2 <;> simp only [h2] at h
  · exact Except.noConfusion h
  rcases h3 : b.get_attribute "data-state_unique_id" with e3 | v3 <;> simp only [h3] at h
  · exact Except.noConfusion h
  rcases h4 : b.get_attribute "data-registration_no" with e4 | v4 <;> simp only [h4] at h
  · exact Except.noConfusion h
  rcases h5 : b.get_attribute "data-facility_name" with e5 | v5 <;> simp only [h5] at h
  · exact Except.noConfusion h
  rcases h6 : b.get_attribute "data-alt_facility_name" with e6 | v6 <;> simp only [h6] at h
  · exact Except.noConfusion h
  rcases h7 : b.get_attribute "data-start_date" with e7 | v7 <;> simp only [h7] at h
  · exact Except.noConfusion h
  rcases h8 : b.get_attribute "data-ownership" with e8 | v8 <;> simp only [h8] at h
  · exact Except.noConfusion h
  rcases h9 : b.get_attribute "data-ownership_type" with e9 | v9 <;> simp only [h9] at h
  · exact Except.noConfusion h
  rcases h10 : b.get_attribute "data-facility_level" with e10 | v10 <;> simp only [h10] at h
  · exact Except.noConfusion h
  rcases h11 : b.get_attribute "data-facility_level_option" with e11 | v11 <;> simp only [h11] at h
  · exact Except.noConfusion h
  rcases h12 : b.get_attribute "data-operational_days" with e12 | v12 <;> simp only [h12] at h
  · exact Except.noConfusion h
  rcases h13 : b.get_attribute "data-operational_hours" with e13 | v13 <;> simp only [h13, Except.ok.injEq] at h
  · exact Except.noConfusion h
  subst h
  exact ⟨v1, _, rfl, rfl, rfl⟩

/-- Inversion of `get_location` on success: a successful call appends exactly one
record to `locations` (all other collections untouched), and that record's
`facility_uid` field is the value read from the `data-id` attribute. -/
lemma get_location_ok {b : Button} {c c' : Collections}
    (h : get_location c b = Except.ok c') :
    ∃ v r, b.get_attribute "data-id" = Except.ok v ∧
      c' = { c with locations := c.locations ++ [r] } ∧
      lookupField "facility_uid" r = some v := by
  unfold get_location at h
  rcases h1 : b.get_attribute "data-id" with e1 | v1 <;> simp only [h1] at h
  · exact Except.noConfusion h
  rcases h2 : b.get_attribute "data-state" with e2 | v2 <;> simp only [h2] at h
  · exact Except.noConfusion h
  rcases h3 : b.get_attribute "data-lga" with e3 | v3 <;> simp only [h3] at h
  · exact Except.noConfusion h
  rcases h4 : b.get_attribute "data-ward" with e4 | v4 <;> simp only [h4] at h
  · exact Except.noConfusion h
  rcases h5 : b.get_attribute "data-physical_location" with e5 | v5 <;> simp only [h5] at h
  · exact Except.noConfusion h
  rcases h6 : b.get_attribute "data-postal_address" with e6 | v6 <;> simp only [h6] at h
  · exact Except.noConfusion h
  rcases h7 : b.get_attribute "data-longitude" with e7 | v7 <;> simp only [h7] at h
  · exact Except.noConfusion h
  rcases h8 : b.get_attribute "data-latitude" with e8 | v8 <;> simp only [h8, Except.ok.injEq] at h
  · exact Except.noConfusion h
  subst h
  exact ⟨v1, _, rfl, rfl, rfl⟩

/-- Inversion of `get_contacts` on success: a successful call appends exactly one
record to `contacts` (all other collections untouched), and that record's
`facility_uid` field is the value read from the `data-id` attribute. -/
lemma get_contacts_ok {b : Button} {c c' : Collections}
    (h : get_contacts c b = Except.ok c') :
    ∃ v r, b.get_attribute "data-id" = Except.ok v ∧
      c' = { c with contacts := c.contacts ++ [r] } ∧
      lookupField "facility_uid" r = some v := by
  unfold get_contacts at h
  rcases h1 : b.get_attribute "data-id" with e1 | v1 <;> simp only [h1] at h
  · exact Except.noConfusion h
  rcases h2 : b.get_attribute "data-phone_number" with e2 | v2 <;> simp only [h2] at h
  · exact Except.noConfusion h
  rcases h3 : b.get_attribute "data-alternate_number" with e3 | v3 <;> simp only [h3] at h
  · exact Except.noConfusion h
  rcases h4 : b.get_attribute "data-email_address" with e4 | v4 <;> simp only [h4] at h
  · exact Except.noConfusion h
  rcases h5 : b.get_attribute "data-website" with e5 | v5 <;> simp only [h5, Except.ok.injEq] at h
  · exact Except.noConfusion h
  subst h
  exact ⟨v1, _, rfl, rfl, rfl⟩

/-- Inversion of `get_status` on success: a successful call appends exactly one
record to `status` (all other collections untouched), and that record's
`facility_uid` field is the value read from the `data-id` attribute. -/
lemma get_status_ok {b : Button} {c c' : Collections}
    (h : get_status c b = Except.ok c') :
    ∃ v r, b.get_attribute "data-id" = Except.ok v ∧
      c' = { c with status := c.status ++ [r] } ∧
      lookupField "facility_uid" r = some v := by
  unfold get_status at h
  rcases h1 : b.get_attribute "data-id" with e1 | v1 <;> simp only [h1] at h
  · exact Except.noConfusion h
  rcases h2 : b.get_attribute "data-operation_status" with e2 | v2 <;> simp only [h2] at h
  · exact Except.noConfusion h
  rcases h3 : b.get_attribute "data-registration_status" with e3 | v3 <;> simp only [h3] at h
  · exact Except.noConfusion h
  rcases h4 : b.get_attribute "data-license_status" with e4 | v4 <;> simp only [h4, Except.ok.injEq] at h
  · exact Except.noConfusion h
  subst h
  exact ⟨v1, _, rfl, rfl, rfl⟩

/-- Inversion of `get_services` on success: a successful call appends exactly one
record to `services` (all other collections untouched), and that record's
`facility_uid` field is the value read from the `data-id` attribute. -/
lemma get_services_ok {b : Button} {c c' : Collections}
    (h : get_services c b = Except.ok c') :
    ∃ v r, b.get_attribute "data-id" = Except.ok v ∧
      c' = { c with services := c.services ++ [r] } ∧
      lookupField "facility_uid" r = some v := by
  unfold get_services at h
  rcases h1 : b.get_attribute "data-id" with e1 | v1 <;> simp only [h1] at h
  · exact Except.noConfusion h
  rcases h2 : b.get_attribute "data-outpatient" with e2 | v2 <;> simp only [h2] at h
  · exact Except.noConfusion h
  rcases h3 : b.get_attribute "data-inpatient" with e3 | v3 <;> simp only [h3] at h
  · exact Except.noConfusion h
  rcases h4 : b.get_attribute "data-medical" with e4 | v4 <;> simp only [h4] at h
  · exact Except.noConfusion h
  rcases h5 : b.get_attribute "data-surgical" with e5 | v5 <;> simp only [h5] at h
  · exact Except.noConfusion h
  rcases h6 : b.get_attribute "data-gyn" with e6 | v6 <;> simp only [h6] at h
  · exact Except.noConfusion h
  rcases h7 : b.get_attribute "data-pediatrics" with e7 | v7 <;> simp only [h7] at h
  · exact Except.noConfusion h
  rcases h8 : b.get_attribute "data-dental" with e8 | v8 <;> simp only [h8] at h
  · exact Except.noConfusion h
  rcases h9 : b.get_attribute "data-specialservice" with e9 | v9 <;> simp only [h9] at h
  · exact Except.noConfusion h
  rcases h10 : b.get_attribute "data-beds" with e10 | v10 <;> simp only [h10] at h
  · exact Except.noConfusion h
  rcases h11 : b.get_attribute "data-onsite_laboratory" with e11 | v11 <;> simp only [h11] at h
  · exact Except.noConfusion h
  rcases h12 : b.get_attribute "data-onsite_imaging" with e12 | v12 <;> simp only [h12] at h
  · exact Except.noConfusion h
  rcases h13 : b.get_attribute "data-onsite_pharmarcy" with e13 | v13 <;> simp only [h13] at h
  · exact Except.noConfusion h
  rcases h14 : b.get_attribute "data-mortuary_services" with e14 | v14 <;> simp only [h14] at h
  · exact Except.noConfusion h
  rcases h15 : b.get_attribute "data-ambulance_services" with e15 | v15 <;> simp only [h15, Except.ok.injEq] at h
  · exact Except.noConfusion h
  subst h
  exact ⟨v1, _, rfl, rfl, rfl⟩

/-- Inversion of `get_personnel` on success: a successful call appends exactly one
record to `personnel` (all other collections untouched), and that record's
`facility_uid` field is the value read from the `data-id` attribute. -/
lemma get_personnel_ok {b : Button} {c c' : Collections}
    (h : get_personnel c b = Except.ok c') :
    ∃ v r, b.get_attribute "data-id" = Except.ok v ∧
      c' = { c with personnel := c.personnel ++ [r] } ∧
      lookupField "facility_uid" r = some v := by
  unfold get_personnel at h
  rcases h1 : b.get_attribute "data-id" with e1 | v1 <;> simp only [h1] at h
  · exact Except.noConfusion h
  rcases h2 : b.get_attribute "data-doctors" with e2 | v2 <;> simp only [h2] at h
  · exact Except.noConfusion h
  rcases h3 : b.get_attribute "data-pharmacists" with e3 | v3 <;> simp only [h3] at h
  · exact Except.noConfusion h
  rcases h4 : b.get_attribute "data-pharmacy_technicians" with e4 | v4 <;> simp only [h4] at h
  · exact Except.noConfusion h
  rcases h5 : b.get_attribute "data-dentist" with e5 | v5 <;> simp only [h5] at h
  · exact Except.noConfusion h
  rcases h6 : b.get_attribute "data-dental_technicians" with e6 | v6 <;> simp only [h6] at h
  · exact Except.noConfusion h
  rcases h7 : b.get_attribute "data-nurses" with e7 | v7 <;> simp only [h7] at h
  · exact Except.noConfusion h
  rcases h8 : b.get_attribute "data-midwifes" with e8 | v8 <;> simp only [h8] at h
  · exact Except.noConfusion h
  rcases h9 : b.get_attribute "data-nurse_midwife" with e9 | v9 <;> simp only [h9] at h
  · exact Except.noConfusion h
  rcases h10 : b.get_attribute "data-lab_technicians" with e10 | v10 <;> simp only [h10] at h
  · exact Except.noConfusion h
  rcases h11 : b.get_attribute "data-lab_scientists" with e11 | v11 <;> simp only [h11] at h
  · exact Except.noConfusion h
  rcases h12 : b.get_attribute "data-him_officers" with e12 | v12 <;> simp only [h12] at h
  · exact Except.noConfusion h
  rcases h13 : b.get_attribute "data-community_health_officer" with e13 | v13 <;> simp only [h13] at h
  · exact Except.noConfusion h
  rcases h14 : b.get_attribute "data-community_extension_workers" with e14 | v14 <;> simp only [h14] at h
  · exact Except.noConfusion h
  rcases h15 : b.get_attribute "data-jun_community_extension_worker" with e15 | v15 <;> simp only [h15] at h
  · exact Except.noConfusion h
  rcases h16 : b.get_attribute "data-env_health_officers" with e16 | v16 <;> simp only [h16] at h
  · exact Except.noConfusion h
  rcases h17 : b.get_attribute "data-attendants" with e17 | v17 <;> simp only [h17, Except.ok.injEq] at h
  · exact Except.noConfusion h
  subst h
  exact ⟨v1, _, rfl, rfl, rfl⟩

/-- Master decomposition of one `extract_data` step: a first segment of
`n` of the seven getters (in call order) completed, each appending exactly
one record whose `facility_uid` field is the value read from the element's
`data-id` attribute (the same value `u` for all of them); the collections
of the remaining getters are untouched; an exception escaped to the caller
iff not all seven getters completed. -/
lemma extract_data_master (c : Collections) (b : Button) :
    ∃ (n : Nat) (u : Option String), n ≤ 7 ∧
      ((extract_data c b).2 = true ↔ n ≤ 6) ∧
      (n = 0 → (extract_data c b).1 = c) ∧
      (1 ≤ n → b.get_attribute "data-id" = Except.ok u) ∧
      (∀ i, i < n → ∃ r, collAt i (extract_data c b).1 = collAt i c ++ [r] ∧
        lookupField "facility_uid" r = some u) ∧
      (∀ i, n ≤ i → collAt i (extract_data c b).1 = collAt i c) := by
  rcases hg0 : get_page_rows c b with e0 | c1
  · have hed : extract_data c b = (c, true) := by
      simp only [extract_data, hg0]
    refine ⟨0, none, by omega, by rw [hed]; simp, fun _ => by rw [hed],
      fun h0 => absurd h0 (by omega), fun i hi => absurd hi (by omega),
      fun i _ => by rw [hed]⟩
  obtain ⟨u, r0, hid0, hc1, hu0⟩ := get_page_rows_ok hg0
  rcases hg1 : get_identifiers c1 b with e1 | c2
  · have hed : extract_data c b = (c1, true) := by
      simp only [extract_data, hg0, hg1]
    refine ⟨1, u, by omega, by rw [hed]; simp, fun h0 => absurd h0 (by omega),
      fun _ => hid0, ?_, ?_⟩
    · intro i hi
      rcases i with _|_|_|_|_|_|_|j
      · exact ⟨r0, by rw [hed, hc1]; rfl, hu0⟩
      all_goals omega
    · intro i hi
      rw [hed, hc1]
      rcases i with _|_|_|_|_|_|_|j
      all_goals first | omega | rfl
  obtain ⟨u1, r1, hid1, hc2, hu1⟩ := get_identifiers_ok hg1
  rw [hid0] at hid1
  injection hid1 with hval1
  subst hval1
  rcases hg2 : get_location c2 b with e2 | c3
  · have hed : extract_data c b = (c2, true) := by
      simp only [extract_data, hg0, hg1, hg2]
    refine ⟨2, u, by omega, by rw [hed]; simp, fun h0 => absurd h0 (by omega),
      fun _ => hid0, ?_, ?_⟩
    · intro i hi
      rcases i with _|_|_|_|_|_|_|j
      · exact ⟨r0, by rw [hed, hc2, hc1]; rfl, hu0⟩
      · exact ⟨r1, by rw [hed, hc2, hc1]; rfl, hu1⟩
      all_goals omega
    · intro i hi
      rw [hed, hc2, hc1]
      rcases i with _|_|_|_|_|_|_|j
      all_goals first | omega | rfl
  obtain ⟨u2, r2, hid2, hc3, hu2⟩ := get_location_ok hg2
  rw [hid0] at hid2
  injection hid2 with hval2
  subst hval2
  rcases hg3 : get_contacts c3 b with e3 | c4
  · have hed : extract_data c b = (c3, true) := by
      simp only [extract_data, hg0, hg1, hg2, hg3]
    refine ⟨3, u, by omega, by rw [hed]; simp, fun h0 => absurd h0 (by omega),
      fun _ => hid0, ?_, ?_⟩
    · intro i hi
      rcases i with _|_|_|_|_|_|_|j
      · exact ⟨r0, by rw [hed, hc3, hc2, hc1]; rfl, hu0⟩
      · exact ⟨r1, by rw [hed, hc3, hc2, hc1]; rfl, hu1⟩
      · exact ⟨r2, by rw [hed, hc3, hc2, hc1]; rfl, hu2⟩
      all_goals omega
    · intro i hi
      rw [hed, hc3, hc2, hc1]
      rcases i with _|_|_|_|_|_|_|j
      all_goals first | omega | rfl
  obtain ⟨u3, r3, hid3, hc4, hu3⟩ := get_contacts_ok hg3
  rw [hid0] at hid3
  injection hid3 with hval3
  subst hval3
  rcases hg4 : get_status c4 b with e4 | c5
  · have hed : extract_data c b = (c4, true) := by
      simp only [extract_data, hg0, hg1, hg2, hg3, hg4]
    refine ⟨4, u, by omega, by rw [hed]; simp, fun h0 => absurd h0 (by omega),
      fun _ => hid0, ?_, ?_⟩
    · intro i hi
      rcases i with _|_|_|_|_|_|_|j
      · exact ⟨r0, by rw [hed, hc4, hc3, hc2, hc1]; rfl, hu0⟩
      · exact ⟨r1, by rw [hed, hc4, hc3, hc2, hc1]; rfl, hu1⟩
      · exact ⟨r2, by rw [hed, hc4, hc3, hc2, hc1]; rfl, hu2⟩
      · exact ⟨r3, by rw [hed, hc4, hc3, hc2, hc1]; rfl, hu3⟩
      all_goals omega
    · intro i hi
      rw [hed, hc4, hc3, hc2, hc1]
      rcases i with _|_|_|_|_|_|_|j
      all_goals first | omega | rfl
  obtain ⟨u4, r4, hid4, hc5, hu4⟩ := get_status_ok hg4
  rw [hid0] at hid4
  injection hid4 with hval4
  subst hval4
  rcases hg5 : get_services c5 b with e5 | c6
  · have hed : extract_data c b = (c5, true) := by
      simp only [extract_data, hg0, hg1, hg2, hg3, hg4, hg5]
    refine ⟨5, u, by omega, by rw [hed]; simp, fun h0 => absurd h0 (by omega),
      fun _ => hid0, ?_, ?_⟩
    · intro i hi
      rcases i with _|_|_|_|_|_|_|j
      · exact ⟨r0, by rw [hed, hc5, hc4, hc3, hc2, hc1]; rfl, hu0⟩
      · exact ⟨r1, by rw [hed, hc5, hc4, hc3, hc2, hc1]; rfl, hu1⟩
      · exact ⟨r2, by rw [hed, hc5, hc4, hc3, hc2, hc1]; rfl, hu2⟩
      · exact ⟨r3, by rw [hed, hc5, hc4, hc3, hc2, hc1]; rfl, hu3⟩
      · exact ⟨r4, by rw [hed, hc5, hc4, hc3, hc2, hc1]; rfl, hu4⟩
      all_goals omega
    · intro i hi
      rw [hed, hc5, hc4, hc3, hc2, hc1]
      rcases i with _|_|_|_|_|_|_|j
      all_goals first | omega | rfl
  obtain ⟨u5, r5, hid5, hc6, hu5⟩ := get_services_ok hg5
  rw [hid0] at hid5
  injection hid5 with hval5
  subst hval5
  rcases hg6 : get_personnel c6 b with e6 | c7
  · have hed : extract_data c b = (c6, true) := by
      simp only [extract_data, hg0, hg1, hg2, hg3, hg4, hg5, hg6]
    refine ⟨6, u, by omega, by rw [hed]; simp, fun h0 => absurd h0 (by omega),
      fun _ => hid0, ?_, ?_⟩
    · intro i hi
      rcases i with _|_|_|_|_|_|_|j
      · exact ⟨r0, by rw [hed, hc6, hc5, hc4, hc3, hc2, hc1]; rfl, hu0⟩
      · exact ⟨r1, by rw [hed, hc6, hc5, hc4, hc3, hc2, hc1]; rfl, hu1⟩
      · exact ⟨r2, by rw [hed, hc6, hc5, hc4, hc3, hc2, hc1]; rfl, hu2⟩
      · exact ⟨r3, by rw [hed, hc6, hc5, hc4, hc3, hc2, hc1]; rfl, hu3⟩
      · exact ⟨r4, by rw [hed, hc6, hc5, hc4, hc3, hc2, hc1]; rfl, hu4⟩
      · exact ⟨r5, by rw [hed, hc6, hc5, hc4, hc3, hc2, hc1]; rfl, hu5⟩
      all_goals omega
    · intro i hi
      rw [hed, hc6, hc5, hc4, hc3, hc2, hc1]
      rcases i with _|_|_|_|_|_|_|j
      all_goals first | omega | rfl
  obtain ⟨u6, r6, hid6, hc7, hu6⟩ := get_personnel_ok hg6
  rw [hid0] at hid6
  injection hid6 with hval6
  subst hval6
  have hed : extract_data c b = (c7, false) := by
    simp only [extract_data, hg0, hg1, hg2, hg3, hg4, hg5, hg6]
  refine ⟨7, u, by omega, by rw [hed]; simp, fun h0 => absurd h0 (by omega),
    fun _ => hid0, ?_, ?_⟩
  · intro i hi
    rcases i with _|_|_|_|_|_|_|j
    · exact ⟨r0, by rw [hed, hc7, hc6, hc5, hc4, hc3, hc2, hc1]; rfl, hu0⟩
    · exact ⟨r1, by rw [hed, hc7, hc6, hc5, hc4, hc3, hc2, hc1]; rfl, hu1⟩
    · exact ⟨r2, by rw [hed, hc7, hc6, hc5, hc4, hc3, hc2, hc1]; rfl, hu2⟩
    · exact ⟨r3, by rw [hed, hc7, hc6, hc5, hc4, hc3, hc2, hc1]; rfl, hu3⟩
    · exact ⟨r4, by rw [hed, hc7, hc6, hc5, hc4, hc3, hc2, hc1]; rfl, hu4⟩
    · exact ⟨r5, by rw [hed, hc7, hc6, hc5, hc4, hc3, hc2, hc1]; rfl, hu5⟩
    · exact ⟨r6, by rw [hed, hc7, hc6, hc5, hc4, hc3, hc2, hc1]; rfl, hu6⟩
    all_goals omega
  · intro i hi
    rw [hed, hc7, hc6, hc5, hc4, hc3, hc2, hc1]
    rcases i with _|_|_|_|_|_|_|j
    all_goals first | omega | rfl

/-- C1, counterexample: extraction of the single row `bRaise` raises (its
`data-phone_number` read fails inside `get_contacts`, the fourth getter),
yet a record for that row remains in `page_rows` (and in `identifiers` and
`locations`), contradicting "no record for that row is left in any of the
seven collections". -/
theorem C1_counterexample :
    (extract_data emptyCollections bRaise).2 = true ∧
    (extract_data emptyCollections bRaise).1.page_rows.length = 1 ∧
    (extract_data emptyCollections bRaise).1.identifiers.length = 1 ∧
    (extract_data emptyCollections bRaise).1.locations.length = 1 ∧
    (extract_data emptyCollections bRaise).1.contacts = [] ∧
    (extract_data emptyCollections bRaise).1.status = [] ∧
    (extract_data emptyCollections bRaise).1.services = [] ∧
    (extract_data emptyCollections bRaise).1.personnel = [] :=
  ⟨rfl, rfl, rfl, rfl, rfl, rfl, rfl, rfl⟩

/-- C1, amended: when extraction of one row's action element raises, the
row's extraction stops at the failing getter — the collections whose
getter had already completed (a prefix of the call order) keep exactly one
new record for the row, and the collections at or after the failing getter
hold no record for it — while every remaining row-action element on the
page is still attempted; the failure does not abort the loop over
elements. -/
theorem C1_amended (c : Collections) (b : Button) (rest : List Button)
    (h : (extract_data c b).2 = true) :
    extract_view_buttons_data c (b :: rest) =
      extract_view_buttons_data (extract_data c b).1 rest ∧
    ∃ k, k ≤ 6 ∧
      (∀ i, i < k → ∃ r, collAt i (extract_data c b).1 = collAt i c ++ [r]) ∧
      (∀ i, k ≤ i → collAt i (extract_data c b).1 = collAt i c) := by
  obtain ⟨n, u, hn, hiff, _, _, happ, hunch⟩ := extract_data_master c b
  exact ⟨rfl, n, hiff.mp h,
    fun i hi => (happ i hi).imp (fun r hr => hr.1), hunch⟩

/-- Witness for C1's amended theorem at the concrete failing button. -/
theorem C1_amended_witness :
    (extract_data emptyCollections bRaise).2 = true ∧
    (extract_view_buttons_data emptyCollections (bRaise :: [bSample]) =
       extract_view_buttons_data (extract_data emptyCollections bRaise).1
         [bSample] ∧
     ∃ k, k ≤ 6 ∧
       (∀ i, i < k → ∃ r, collAt i (extract_data emptyCollections bRaise).1 =
         collAt i emptyCollections ++ [r]) ∧
       (∀ i, k ≤ i → collAt i (extract_data emptyCollections bRaise).1 =
         collAt i emptyCollections)) :=
  ⟨rfl, C1_amended emptyCollections bRaise [bSample] rfl⟩

/-- C2: at one extraction step there is a single value `u` (the value the
element's `data-id` attribute reads as, `none` being the absent marker)
such that every collection is either untouched or extended by exactly one
record whose `facility_uid` field equals `u`; whenever anything was
appended at all, `u` is exactly what `data-id` read as. -/
theorem C2_theorem (c : Collections) (b : Button) :
    ∃ u : Option String,
      ((extract_data c b).1 ≠ c → b.get_attribute "data-id" = Except.ok u) ∧
      appendedUid c.page_rows (extract_data c b).1.page_rows u ∧
      appendedUid c.identifiers (extract_data c b).1.identifiers u ∧
      appendedUid c.locations (extract_data c b).1.locations u ∧
      appendedUid c.contacts (extract_data c b).1.contacts u ∧
      appendedUid c.status (extract_data c b).1.status u ∧
      appendedUid c.services (extract_data c b).1.services u ∧
      appendedUid c.personnel (extract_data c b).1.personnel u := by
  obtain ⟨n, u, hn, hiff, h0, hid, happ, hunch⟩ := extract_data_master c b
  refine ⟨u, ?_, ?_, ?_, ?_, ?_, ?_, ?_, ?_⟩
  · intro hne
    rcases Nat.eq_zero_or_pos n with hz | hp
    · exact absurd (h0 hz) hne
    · exact hid hp
  · exact (Nat.lt_or_ge 0 n).elim (fun h => Or.inr (happ 0 h))
      (fun h => Or.inl (hunch 0 h))
  · exact (Nat.lt_or_ge 1 n).elim (fun h => Or.inr (happ 1 h))
      (fun h => Or.inl (hunch 1 h))
  · exact (Nat.lt_or_ge 2 n).elim (fun h => Or.inr (happ 2 h))
      (fun h => Or.inl (hunch 2 h))
  · exact (Nat.lt_or_ge 3 n).elim (fun h => Or.inr (happ 3 h))
      (fun h => Or.inl (hunch 3 h))
  · exact (Nat.lt_or_ge 4 n).elim (fun h => Or.inr (happ 4 h))
      (fun h => Or.inl (hunch 4 h))
  · exact (Nat.lt_or_ge 5 n).elim (fun h => Or.inr (happ 5 h))
      (fun h => Or.inl (hunch 5 h))
  · exact (Nat.lt_or_ge 6 n).elim (fun h => Or.inr (happ 6 h))
      (fun h => Or.inl (hunch 6 h))

/-- Witness for C2 at a concrete state and button. -/
theorem C2_witness :
    ∃ u : Option String,
      ((extract_data emptyCollections bSample).1 ≠ emptyCollections →
        bSample.get_attribute "data-id" = Except.ok u) ∧
      appendedUid emptyCollections.page_rows
        (extract_data emptyCollections bSample).1.page_rows u ∧
      appendedUid emptyCollections.identifiers
        (extract_data emptyCollections bSample).1.identifiers u ∧
      appendedUid emptyCollections.locations
        (extract_data emptyCollections bSample).1.locations u ∧
      appendedUid emptyCollections.contacts
        (extract_data emptyCollections bSample).1.contacts u ∧
      appendedUid emptyCollections.status
        (extract_data emptyCollections bSample).1.status u ∧
      appendedUid emptyCollections.services
        (extract_data emptyCollections bSample).1.services u ∧
      appendedUid emptyCollections.personnel
        (extract_data emptyCollections bSample).1.personnel u :=
  C2_theorem emptyCollections bSample

/-- C7: for an action element without a given attribute (here
`data-website`, whose read returns the absent marker) and no raising
read, the contact record's `website` field holds the absent-value marker
rather than failing, and the other six record kinds are still extracted
and appended for that same element. -/
theorem C7_theorem (c : Collections) (b : Button)
    (hfail : b.failing = [])
    (hweb : b.get_attribute "data-website" = Except.ok none) :
    C7Prop c b := by
  have hn : ∀ n, b.get_attribute n = Except.ok (attrVal b n) := by
    intro n
    simp [Button.get_attribute, hfail]
  have hweb2 : attrVal b "data-website" = none := by
    have h := hn "data-website"
    rw [h] at hweb
    exact Except.ok.inj hweb
  refine ⟨?_, ?_, ?_, ?_, ?_, ?_, ?_, ?_⟩
  · simp only [extract_data, get_page_rows, get_identifiers, get_location,
      get_contacts, get_status, get_services, get_personnel, hn]
  · simp only [extract_data, get_page_rows, get_identifiers, get_location,
      get_contacts, get_status, get_services, get_personnel, hn]
    exact ⟨_, rfl, by rw [hweb2]; rfl⟩
  · simp only [extract_data, get_page_rows, get_identifiers, get_location,
      get_contacts, get_status, get_services, get_personnel, hn]
    exact ⟨_, rfl⟩
  · simp only [extract_data, get_page_rows, get_identifiers, get_location,
      get_contacts, get_status, get_services, get_personnel, hn]
    exact ⟨_, rfl⟩
  · simp only [extract_data, get_page_rows, get_identifiers, get_location,
      get_contacts, get_status, get_services, get_personnel, hn]
    exact ⟨_, rfl⟩
  · simp only [extract_data, get_page_rows, get_identifiers, get_location,
      get_contacts, get_status, get_services, get_personnel, hn]
    exact ⟨_, rfl⟩
  · simp only [extract_data, get_page_rows, get_identifiers, get_location,
      get_contacts, get_status, get_services, get_personnel, hn]
    exact ⟨_, rfl⟩
  · simp only [extract_data, get_page_rows, get_identifiers, get_location,
      get_contacts, get_status, get_services, get_personnel, hn]
    exact ⟨_, rfl⟩

/-- Witness for C7 at the concrete button with no `data-website`
attribute. -/
theorem C7_witness :
    bNoWeb.failing = [] ∧
    bNoWeb.get_attribute "data-website" = Except.ok none ∧
    C7Prop emptyCollections bNoWeb :=
  ⟨rfl, rfl, C7_theorem emptyCollections bNoWeb rfl rfl⟩

/-- Updating only the accumulators does not change which page the browser
shows. -/
lemma shownPage_colls (s : ScrapState) (c : Collections) :
    shownPage { s with colls := c } = shownPage s := rfl

/-- C10: the stop-page bound is checked in test mode as well: with the
test flag on, a stop page equal to the current page stops the iteration
right after extracting that page even though the test-mode condition
(current page mod 3 = 2) is false; the test-mode check runs first but
does not disable the stop-page check. -/
theorem C10_theorem (s : ScrapState) (pg : Page)
    (hs : shownPage s = some pg) (ht : pg.hasTable = true)
    (hb : pg.hasBody = true)
    (htest : s.test = true) (hmod : s.current_page % 3 ≠ 2)
    (hstop : s.stop_page = some s.current_page) :
    scrape_iter s = StepOut.done
      { s with colls := extract_view_buttons_data s.colls pg.buttons } := by
  simp [scrape_iter, get_page_table, get_table_body, get_page_view_buttons,
    hs, ht, hb, htest, hmod, hstop]

/-- Witness for C10: test mode with stop page 1 on page 1 (1 mod 3 ≠ 2). -/
theorem C10_witness :
    shownPage (mkScraper true 1 (some 1) siteOne true) = some pgLast ∧
    (mkScraper true 1 (some 1) siteOne true).test = true ∧
    (mkScraper true 1 (some 1) siteOne true).current_page % 3 ≠ 2 ∧
    (mkScraper true 1 (some 1) siteOne true).stop_page =
      some (mkScraper true 1 (some 1) siteOne true).current_page ∧
    scrape_iter (mkScraper true 1 (some 1) siteOne true) = StepOut.done
      { mkScraper true 1 (some 1) siteOne true with
        colls := extract_view_buttons_data
          (mkScraper true 1 (some 1) siteOne true).colls pgLast.buttons } :=
  ⟨rfl, rfl, by decide, rfl,
    C10_theorem (mkScraper true 1 (some 1) siteOne true) pgLast rfl rfl rfl
      rfl (by decide) rfl⟩

/-- C6: at the page-advance step (table and body found, neither stop
condition fired), an absent next-page link terminates the run normally
with the page counter unchanged, while a present next-page link is
clicked and the counter is incremented by exactly one. -/
theorem C6_theorem (s : ScrapState) (pg : Page)
    (hs : shownPage s = some pg) (ht : pg.hasTable = true)
    (hb : pg.hasBody = true) (hpag : pg.hasPagination = true)
    (htest : ¬(s.test = true ∧ s.current_page % 3 = 2))
    (hstop : s.stop_page ≠ some s.current_page) :
    (pg.hasNext = false → scrape_iter s = StepOut.done
      { s with colls := extract_view_buttons_data s.colls pg.buttons }) ∧
    (pg.hasNext = true → scrape_iter s = StepOut.again
      { s with
        pos := s.pos + 1
        current_page := s.current_page + 1
        colls := extract_view_buttons_data s.colls pg.buttons }) := by
  constructor <;> intro hnext <;>
    simp [scrape_iter, get_page_table, get_table_body, get_page_view_buttons,
      get_next_page, shownPage_colls, hs, ht, hb, hpag, htest, hstop, hnext]

/-- Witness for C6 on a last page (no next link): the run stops with the
counter unchanged. -/
theorem C6_witness :
    shownPage (mkScraper false 1 none siteOne true) = some pgLast ∧
    pgLast.hasPagination = true ∧
    ¬((mkScraper false 1 none siteOne true).test = true ∧
      (mkScraper false 1 none siteOne true).current_page % 3 = 2) ∧
    (mkScraper false 1 none siteOne true).stop_page ≠
      some (mkScraper false 1 none siteOne true).current_page ∧
    pgLast.hasNext = false ∧
    scrape_iter (mkScraper false 1 none siteOne true) = StepOut.done
      { mkScraper false 1 none siteOne true with
        colls := extract_view_buttons_data
          (mkScraper false 1 none siteOne true).colls pgLast.buttons } :=
  ⟨rfl, rfl, by decide, by decide, rfl,
    (C6_theorem (mkScraper false 1 none siteOne true) pgLast rfl rfl rfl rfl
      (by decide) (by decide)).1 rfl⟩

/-- When the shown page has a table and body but no pagination container,
the iteration extracts the page, then the pagination lookup raises, the
loop-level handler catches it, and the iteration ends in `again` with the
page cursor and counter unchanged. -/
lemma scrape_iter_no_pagination (s : ScrapState) (pg : Page)
    (hs : shownPage s = some pg) (ht : pg.hasTable = true)
    (hb : pg.hasBody = true) (hpag : pg.hasPagination = false)
    (htest : ¬(s.test = true ∧ s.current_page % 3 = 2))
    (hstop : s.stop_page ≠ some s.current_page) :
    scrape_iter s = StepOut.again
      { s with colls := extract_view_buttons_data s.colls pg.buttons } := by
  simp [scrape_iter, get_page_table, get_table_body, get_page_view_buttons,
    get_next_page, shownPage_colls, hs, ht, hb, hpag, htest, hstop]

/-- With a persistent missing pagination container the loop never
finishes, for any amount of fuel. -/
lemma scrapeLoop_no_pagination (fuel : Nat) :
    ∀ (s : ScrapState) (pg : Page),
      shownPage s = some pg → pg.hasTable = true → pg.hasBody = true →
      pg.hasPagination = false →
      ¬(s.test = true ∧ s.current_page % 3 = 2) →
      s.stop_page ≠ some s.current_page →
      scrapeLoop fuel s = none := by
  induction fuel with
  | zero => intro s pg _ _ _ _ _ _; rfl
  | succ f ih =>
    intro s pg hs ht hb hpag htest hstop
    have hstep := scrape_iter_no_pagination s pg hs ht hb hpag htest hstop
    simp only [scrapeLoop, hstep]
    exact ih _ pg hs ht hb hpag htest hstop

/-- C9: when the pagination container is absent (with table and body
present and no stop condition firing), the run does not terminate: the
container lookup's exception escapes `get_next_page`, the loop-level
handler catches it, and the same page state (cursor and counter) is
retried on the next iteration, forever. -/
theorem C9_theorem (s : ScrapState) (pg : Page)
    (hs : shownPage s = some pg) (ht : pg.hasTable = true)
    (hb : pg.hasBody = true) (hpag : pg.hasPagination = false)
    (htest : ¬(s.test = true ∧ s.current_page % 3 = 2))
    (hstop : s.stop_page ≠ some s.current_page) :
    scrape_iter s = StepOut.again
      { s with colls := extract_view_buttons_data s.colls pg.buttons } ∧
    ∀ fuel, scrapeLoop fuel s = none :=
  ⟨scrape_iter_no_pagination s pg hs ht hb hpag htest hstop,
   fun fuel => scrapeLoop_no_pagination fuel s pg hs ht hb hpag htest hstop⟩

/-- Witness for C9 at the concrete listing whose page has no pagination
container. -/
theorem C9_witness :
    shownPage (mkScraper false 1 none siteNoPagination true) =
      some pgNoPagination ∧
    pgNoPagination.hasPagination = false ∧
    (scrape_iter (mkScraper false 1 none siteNoPagination true) =
      StepOut.again
        { mkScraper false 1 none siteNoPagination true with
          colls := extract_view_buttons_data
            (mkScraper false 1 none siteNoPagination true).colls
            pgNoPagination.buttons } ∧
     ∀ fuel, scrapeLoop fuel (mkScraper false 1 none siteNoPagination true) =
       none) :=
  ⟨rfl, rfl,
    C9_theorem (mkScraper false 1 none siteNoPagination true) pgNoPagination
      rfl rfl rfl rfl (by decide) (by decide)⟩

/-- With a persistent missing results table the loop body fails every
iteration (caught and logged), the state never changes, and the loop never
finishes, for any amount of fuel. -/
lemma scrapeLoop_stuck (fuel : Nat) : scrapeLoop fuel stuckState = none := by
  induction fuel with
  | zero => rfl
  | succ f ih =>
    have hstep : scrape_iter stuckState = StepOut.again stuckState := rfl
    simp only [scrapeLoop, hstep]
    exact ih

/-- C5, counterexample: on a listing whose page has no results table,
`run()` never completes — no amount of fuel makes `scrape_mh_data` return
the bundle — so "it always completes normally and returns the bundle" is
false (the iteration failure is swallowed and the same failing page state
is retried forever). -/
theorem C5_counterexample :
    ¬ ∃ fuel out, scrape_mh_data fuel stuckState = some out := by
  rintro ⟨fuel, out, h⟩
  unfold scrape_mh_data at h
  rw [scrapeLoop_stuck fuel] at h
  exact Option.noConfusion h

/-- C5, amended: `run()` never propagates an exception: whenever the loop
terminates it returns the keyed bundle of whatever was collected, and a
table/body lookup failure is caught by the loop-level handler, which
retries the same state instead of raising — but the run is not guaranteed
to terminate at all. -/
theorem C5_amended (fuel : Nat) (s s' : ScrapState)
    (h : scrapeLoop fuel s = some s') :
    scrape_mh_data fuel s = some (full_data s'.colls) ∧
    ∀ t : ScrapState, get_table_body (get_page_table t) = Except.error () →
      scrape_iter t = StepOut.again t := by
  refine ⟨by simp [scrape_mh_data, h], ?_⟩
  intro t htb
  simp only [scrape_iter, htb]

/-- Witness for C5's amended theorem: a one-page listing where the run
terminates in one iteration and returns the bundle. -/
theorem C5_amended_witness :
    ∃ s', scrapeLoop 1 (mkScraper true 1 none siteOne true) = some s' ∧
      scrape_mh_data 1 (mkScraper true 1 none siteOne true) =
        some (full_data s'.colls) :=
  ⟨_, rfl, (C5_amended 1 (mkScraper true 1 none siteOne true) _ rfl).1⟩

/-- C3: in test mode starting at page 1, on a listing with at least two
well-formed pages (and a next link on page 1), the run extracts exactly
pages 1 and 2 and stops: the test-mode check `current_page % 3 == 2`
fires right after extracting page 2, and the collections are exactly the
fold over pages 1 and 2 — nothing from page 3 or later. -/
theorem C3_theorem (site : List Page) (p1 p2 : Page) (fuel : Nat)
    (h1 : site[0]? = some p1) (h2 : site[1]? = some p2)
    (ht1 : p1.hasTable = true) (hb1 : p1.hasBody = true)
    (hpag1 : p1.hasPagination = true) (hnext1 : p1.hasNext = true)
    (ht2 : p2.hasTable = true) (hb2 : p2.hasBody = true)
    (hfuel : 2 ≤ fuel) :
    scrapeLoop fuel (mkScraper true 1 none site true) = some
      { site := site
        pos := 2
        current_page := 2
        stop_page := none
        test := true
        colls := extract_view_buttons_data
          (extract_view_buttons_data emptyCollections p1.buttons)
          p2.buttons } := by
  obtain ⟨k, rfl⟩ : ∃ k, fuel = k + 2 := ⟨fuel - 2, by omega⟩
  have hstep1 : scrape_iter (mkScraper true 1 none site true) =
      StepOut.again
        { site := site
          pos := 2
          current_page := 2
          stop_page := none
          test := true
          colls := extract_view_buttons_data emptyCollections p1.buttons } := by
    simp [scrape_iter, get_page_table, get_table_body, get_page_view_buttons,
      get_next_page, shownPage, mkScraper, h1, ht1, hb1, hpag1, hnext1]
  have hstep2 : scrape_iter
      { site := site
        pos := 2
        current_page := 2
        stop_page := none
        test := true
        colls := extract_view_buttons_data emptyCollections p1.buttons } =
      StepOut.done
        { site := site
          pos := 2
          current_page := 2
          stop_page := none
          test := true
          colls := extract_view_buttons_data
            (extract_view_buttons_data emptyCollections p1.buttons)
            p2.buttons } := by
    simp [scrape_iter, get_page_table, get_table_body, get_page_view_buttons,
      shownPage, h2, ht2, hb2]
  simp only [scrapeLoop, hstep1, hstep2]

/-- Witness for C3 on the concrete two-page listing. -/
theorem C3_witness :
    siteTwo[0]? = some pgFull ∧ siteTwo[1]? = some pgLast ∧
    pgFull.hasNext = true ∧
    scrapeLoop 2 (mkScraper true 1 none siteTwo true) = some
      { site := siteTwo
        pos := 2
        current_page := 2
        stop_page := none
        test := true
        colls := extract_view_buttons_data
          (extract_view_buttons_data emptyCollections pgFull.buttons)
          pgLast.buttons } :=
  ⟨rfl, rfl, rfl,
    C3_theorem siteTwo pgFull pgLast 2 rfl rfl rfl rfl rfl rfl rfl rfl
      (by decide)⟩

/-- From any state with the stop page `S` exactly `k` pages ahead, pages
well-formed up to `S`, and enough fuel, the loop extracts pages
`current, ..., S` in order and breaks at `S` via the stop-page check. -/
lemma scrapeLoop_stop_page (pg : Nat → Page) (S : Nat) :
    ∀ (k fuel : Nat) (s : ScrapState),
      s.test = false → s.stop_page = some S → s.pos = s.current_page →
      1 ≤ s.current_page → s.current_page + k = S →
      (∀ n, s.current_page ≤ n → n ≤ S →
        s.site[n - 1]? = some (pg n) ∧ (pg n).hasTable = true ∧
        (pg n).hasBody = true ∧ (pg n).hasPagination = true ∧
        (n < S → (pg n).hasNext = true)) →
      k + 1 ≤ fuel →
      scrapeLoop fuel s = some
        { site := s.site
          pos := S
          current_page := S
          stop_page := some S
          test := false
          colls := extractPages pg s.colls s.current_page (k + 1) } := by
  intro k
  induction k with
  | zero =>
    intro fuel s htest hstop hpos hcur hsum hpages hfuel
    obtain ⟨f, rfl⟩ : ∃ f, fuel = f + 1 := ⟨fuel - 1, by omega⟩
    have hcS : s.current_page = S := by omega
    subst hcS
    obtain ⟨hpg1, hpg2, hpg3, hpg4, hpg5⟩ :=
      hpages s.current_page (le_refl _) (le_refl _)
    have hc0 : ¬(s.current_page = 0) := by omega
    have hstep : scrape_iter s = StepOut.done
        { s with colls :=
            extract_view_buttons_data s.colls (pg s.current_page).buttons } := by
      simp [scrape_iter, get_page_table, get_table_body,
        get_page_view_buttons, shownPage, hpos, hc0, hpg1, hpg2, hpg3,
        htest, hstop]
    simp only [scrapeLoop, hstep]
    rw [hpos, hstop, htest]
    rfl
  | succ k ih =>
    intro fuel s htest hstop hpos hcur hsum hpages hfuel
    obtain ⟨f, rfl⟩ : ∃ f, fuel = f + 1 := ⟨fuel - 1, by omega⟩
    obtain ⟨hpg1, hpg2, hpg3, hpg4, hpg5⟩ :=
      hpages s.current_page (le_refl _) (by omega)
    have hc0 : ¬(s.current_page = 0) := by omega
    have hlt : s.current_page < S := by omega
    have hne : S ≠ s.current_page := by omega
    have hnext : (pg s.current_page).hasNext = true := hpg5 hlt
    have hstep : scrape_iter s = StepOut.again
        { s with
          pos := s.pos + 1
          current_page := s.current_page + 1
          colls :=
            extract_view_buttons_data s.colls (pg s.current_page).buttons } := by
      simp [scrape_iter, get_page_table, get_table_body,
        get_page_view_buttons, get_next_page, shownPage, hpos, hc0,
        hpg1, hpg2, hpg3, hpg4, hnext, htest, hstop, hne]
    simp only [scrapeLoop, hstep]
    refine (ih f
      { s with
        pos := s.pos + 1
        current_page := s.current_page + 1
        colls :=
          extract_view_buttons_data s.colls (pg s.current_page).buttons }
      htest hstop ?_ ?_ ?_ ?_ ?_).trans ?_
    · show s.pos + 1 = s.current_page + 1
      omega
    · show 1 ≤ s.current_page + 1
      omega
    · show s.current_page + 1 + k = S
      omega
    · intro n hn1 hn2
      have hn1' : s.current_page + 1 ≤ n := hn1
      exact hpages n (by omega) hn2
    · omega
    · rfl

/-- C4: in non-test mode with a stop page `S` strictly above the start
page `P`, on a listing whose pages `P..S` are all well formed (with a
next link wherever a further page is needed), the run extracts exactly
pages `P` through `S` in order and stops at `S` without clicking to or
extracting page `S+1`: the final browser cursor still sits on page `S`
and the collections are exactly the fold over pages `P..S`. -/
theorem C4_theorem (site : List Page) (pg : Nat → Page) (P S fuel : Nat)
    (hP : 1 ≤ P) (hPS : P < S)
    (hpages : ∀ n, P ≤ n → n ≤ S → site[n - 1]? = some (pg n) ∧
      (pg n).hasTable = true ∧ (pg n).hasBody = true ∧
      (pg n).hasPagination = true ∧ (n < S → (pg n).hasNext = true))
    (hfuel : S - P + 1 ≤ fuel) :
    scrapeLoop fuel (mkScraper false P (some S) site true) = some
      { site := site
        pos := S
        current_page := S
        stop_page := some S
        test := false
        colls := extractPages pg emptyCollections P (S - P + 1) } := by
  have h := scrapeLoop_stop_page pg S (S - P) fuel
      (mkScraper false P (some S) site true) rfl rfl rfl hP
      (by show P + (S - P) = S; omega) hpages hfuel
  exact h

/-- Witness for C4 on the concrete two-page listing, start page 1, stop
page 2. -/
theorem C4_witness :
    1 ≤ 1 ∧ 1 < 2 ∧
    (∀ n, 1 ≤ n → n ≤ 2 → siteTwo[n - 1]? = some (pgTwo n) ∧
      (pgTwo n).hasTable = true ∧ (pgTwo n).hasBody = true ∧
      (pgTwo n).hasPagination = true ∧ (n < 2 → (pgTwo n).hasNext = true)) ∧
    scrapeLoop 2 (mkScraper false 1 (some 2) siteTwo true) = some
      { site := siteTwo
        pos := 2
        current_page := 2
        stop_page := some 2
        test := false
        colls := extractPages pgTwo emptyCollections 1 2 } := by
  refine ⟨by decide, by decide, ?_, ?_⟩
  · intro n h1 h2
    interval_cases n
    · exact ⟨rfl, rfl, rfl, rfl, fun _ => rfl⟩
    · exact ⟨rfl, rfl, rfl, rfl, fun h => absurd h (by omega)⟩
  · exact C4_theorem siteTwo pgTwo 1 2 2 (by decide) (by decide)
      (fun n h1 h2 => by
        interval_cases n
        · exact ⟨rfl, rfl, rfl, rfl, fun _ => rfl⟩
        · exact ⟨rfl, rfl, rfl, rfl, fun h => absurd h (by omega)⟩)
      (by decide)

/-- A successful page advance does not change the listing the browser
reads. -/
lemma get_next_page_site {s t : ScrapState} {bb : Bool}
    (h : get_next_page s = Except.ok (t, bb)) : t.site = s.site := by
  unfold get_next_page at h
  rcases hs : shownPage s with _ | pg <;> simp only [hs] at h
  · exact Except.noConfusion h
  split at h
  · split at h
    · simp only [Except.ok.injEq, Prod.mk.injEq] at h
      rw [← h.1]
    · simp only [Except.ok.injEq, Prod.mk.injEq] at h
      rw [← h.1]
  · exact Except.noConfusion h

/-- One loop iteration never changes the listing: scraping only reads the
source. -/
lemma scrape_iter_site (s : ScrapState) :
    (scrape_iter s).state.site = s.site := by
  unfold scrape_iter
  rcases hgb : get_table_body (get_page_table s) with e | pg
  · rfl
  · dsimp only
    split
    · rfl
    · split
      · rfl
      · split
        · rfl
        · next s2 bb heq =>
          have hsite := get_next_page_site heq
          split <;> exact hsite

/-- Whatever state the loop breaks in has the same listing it started
with. -/
lemma scrapeLoop_site (fuel : Nat) :
    ∀ (s s' : ScrapState), scrapeLoop fuel s = some s' → s'.site = s.site := by
  induction fuel with
  | zero => intro s s' h; exact Option.noConfusion h
  | succ f ih =>
    intro s s' h
    simp only [scrapeLoop] at h
    rcases hstep : scrape_iter s with t | t <;>
      simp only [hstep, Option.some.injEq] at h
    · have hsite := scrape_iter_site s
      rw [hstep] at hsite
      subst h
      exact hsite
    · have hsite := scrape_iter_site s
      rw [hstep] at hsite
      exact (ih t s' h).trans hsite

/-- C8: the run is deterministic and side-effect free on the source: for
a fixed listing and identical constructor arguments, two runs of
`scrape_mh_data` return equal bundles (same contents in the same order in
all seven collections), and the listing read by the scraper is unchanged
by the run. -/
theorem C8_theorem (test : Bool) (start_page : Nat) (stop_page : Option Nat)
    (site : List Page) (navOk : Bool) (fuel : Nat) :
    scrape_mh_data fuel (mkScraper test start_page stop_page site navOk) =
      scrape_mh_data fuel (mkScraper test start_page stop_page site navOk) ∧
    ∀ s', scrapeLoop fuel (mkScraper test start_page stop_page site navOk) =
        some s' → s'.site = site :=
  ⟨rfl, fun s' h => scrapeLoop_site fuel _ s' h⟩

/-- Witness for C8 on the concrete one-page listing. -/
theorem C8_witness :
    scrape_mh_data 1 (mkScraper true 1 none siteOne true) =
      scrape_mh_data 1 (mkScraper true 1 none siteOne true) ∧
    ∃ s', scrapeLoop 1 (mkScraper true 1 none siteOne true) = some s' ∧
      s'.site = siteOne := by
  refine ⟨(C8_theorem true 1 none siteOne true 1).1, ⟨_, rfl, ?_⟩⟩
  exact (C8_theorem true 1 none siteOne true 1).2 _ rfl
